import Mathlib

/-!
Shallow embedding of the SSO device-authorization login flow of
`src/aws-grok.py` (`sso_device_flow_login`, lines 141-237), together with
proofs about its polling loop, error handling and call sequencing.

The flow is modelled as a pure function of the profile configuration and an
"issuer world": the scripted outcomes of the external calls the flow makes
(client registration, device-authorization start, browser launch, a finite
list of token-endpoint responses, role-credential exchange, identity
verification).  The function returns the list of observable events (API
calls, prints, sleeps) together with the returned value.  Wall-clock time is
modelled as the total number of seconds slept; the real code additionally
counts request latencies, which the model abstracts to zero.  A finite token
script that runs out while the loop is still going is reported as `polling`,
standing for the loop not having returned yet.
-/

namespace AwsGrok

/-- Python truthiness of an optional string: `None` and `""` are falsy. -/
def truthy : Option String → Bool
  | none => false
  | some s => !s.isEmpty

/-- Python `a or b` on optional strings: `b` whenever `a` is falsy. -/
def pyOr (a b : Option String) : Option String :=
  if truthy a then a else b

/-- How Python renders an optional string when printing or passing it on
(`None` prints as `"None"`). -/
def optStr : Option String → String
  | none => "None"
  | some s => s

/-- The profile keys read by `sso_device_flow_login` (lines 144-147, 231).
`none` models an absent key, `some ""` an empty value. -/
structure ProfileConf where
  sso_start_url : Option String
  sso_starturl : Option String
  sso_region : Option String
  sso_account_id : Option String
  sso_account : Option String
  sso_role_name : Option String
  role_name : Option String
  region : Option String
deriving DecidableEq

/-- `start_url = conf.get("sso_start_url") or conf.get("sso_starturl")` (line 144). -/
def resolvedStartUrl (c : ProfileConf) : Option String :=
  pyOr c.sso_start_url c.sso_starturl

/-- `sso_region = conf.get("sso_region")` (line 145). -/
def resolvedRegion (c : ProfileConf) : Option String :=
  c.sso_region

/-- `account_id = conf.get("sso_account_id") or conf.get("sso_account")` (line 146). -/
def resolvedAccountId (c : ProfileConf) : Option String :=
  pyOr c.sso_account_id c.sso_account

/-- `role_name = conf.get("sso_role_name") or conf.get("role_name")` (line 147). -/
def resolvedRoleName (c : ProfileConf) : Option String :=
  pyOr c.sso_role_name c.role_name

/-- The guard `start_url and sso_region and account_id and role_name` (line 149). -/
def configComplete (c : ProfileConf) : Bool :=
  truthy (resolvedStartUrl c) && truthy (resolvedRegion c) &&
    truthy (resolvedAccountId c) && truthy (resolvedRoleName c)

/-- Response of `register_client` (line 156). -/
structure RegResponse where
  clientId : String
  clientSecret : String
deriving DecidableEq

/-- Outcome of the `register_client` call: success or a `ClientError`. -/
inductive RegResult where
  | ok (r : RegResponse)
  | clientError (msg : String)
deriving DecidableEq

/-- Response of `start_device_authorization` (lines 164-169); every field is
read with `.get`, so each is optional. -/
structure DeviceAuthResponse where
  verificationUriComplete : Option String
  verificationUri : Option String
  userCode : Option String
  deviceCode : Option String
  interval : Option Nat
  expiresIn : Option Nat
deriving DecidableEq

/-- Outcome of the `start_device_authorization` call. -/
inductive DevAuthResult where
  | ok (d : DeviceAuthResponse)
  | clientError (msg : String)
deriving DecidableEq

/-- One response of the token endpoint (`create_token`, lines 188-197): either
a success payload with an optional `accessToken`, or a `ClientError` carrying
an error code. -/
inductive TokenResponse where
  | success (accessToken : Option String)
  | clientError (code : String)
deriving DecidableEq

/-- The retryable code tested on line 198. -/
def pendingResp : TokenResponse := .clientError "AuthorizationPendingException"

/-- The retryable code tested on line 204. -/
def slowDownResp : TokenResponse := .clientError "SlowDownException"

/-- `role_resp["roleCredentials"]` (lines 220-223). -/
structure RoleCredentials where
  accessKeyId : String
  secretAccessKey : String
  sessionToken : String
deriving DecidableEq

/-- Outcome of the `get_role_credentials` call. -/
inductive RoleCredResult where
  | ok (c : RoleCredentials)
  | clientError (msg : String)
deriving DecidableEq

/-- Outcome of `webbrowser.open` (line 179): it returns, or raises (the
exception being swallowed by the bare `except` on line 180). -/
inductive BrowserOutcome where
  | opened
  | raised
deriving DecidableEq

/-- Scripted outcomes of every external interaction of one login attempt. -/
structure Issuer where
  register : RegResult
  deviceAuth : DevAuthResult
  browser : BrowserOutcome
  tokenResponses : List TokenResponse
  roleCreds : RoleCredResult
  verifyOk : Bool
deriving DecidableEq

/-- Observable events of the flow, in order. -/
inductive Event where
  | registerCall
  | deviceAuthCall (clientId clientSecret startUrl : String)
  | print (s : String)
  | browserOpen (uri : String) (raised : Bool)
  | sleep (seconds : Nat)
  | tokenRequest (clientId clientSecret : String) (deviceCode : Option String)
  | roleCredCall (accountId roleName accessToken : String)
  | verifyCall
deriving DecidableEq

/-- Result of the polling loop (lines 183-210): the `break` with the optional
`accessToken`, the timeout return, or the non-retryable-error return. -/
inductive PollOutcome where
  | token (t : Option String)
  | timedOut
  | tokenError (code : String)
deriving DecidableEq

/-- What the whole flow produces: a Python `return` of an optional
credentials dict, or — for a finite token script that ran out — the loop
still polling. -/
structure Extra where
  aws_access_key_id : String
  aws_secret_access_key : String
  aws_session_token : String
  region_name : Option String
deriving DecidableEq

/-- Flow result: `returns v` models `return v` (with `none` for `return None`);
`polling` means the finite token script was exhausted with the loop still
running. -/
inductive FlowResult where
  | returns (creds : Option Extra)
  | polling
deriving DecidableEq

/-- The token polling loop (lines 186-210), run against a finite script of
issuer responses.  `interval` and `elapsed` are the current poll interval and
the seconds slept since `start = time.time()` (line 185).  On a `Pending`
error the code sleeps, then checks `time.time() - start > expires_in`, and
either returns (timeout) or retries; on `SlowDown` it raises the interval by
5 capped at 60, sleeps the new interval, and retries without a timeout
check; on any other error code it prints and returns. -/
def pollLoop (cid csec : String) (dcode : Option String) (expiresIn : Nat) :
    List TokenResponse → Nat → Nat → List Event × Option PollOutcome
  | [], _, _ => ([], none)
  | r :: rs, interval, elapsed =>
    match r with
    | .success tok => ([.tokenRequest cid csec dcode], some (.token tok))
    | .clientError code =>
      if code = "AuthorizationPendingException" then
        if expiresIn < elapsed + interval then
          ([.tokenRequest cid csec dcode, .sleep interval,
            .print "Device authorization timed out."], some .timedOut)
        else
          ((.tokenRequest cid csec dcode) :: (.sleep interval) ::
              (pollLoop cid csec dcode expiresIn rs interval (elapsed + interval)).1,
            (pollLoop cid csec dcode expiresIn rs interval (elapsed + interval)).2)
      else if code = "SlowDownException" then
        ((.tokenRequest cid csec dcode) :: (.sleep (min (interval + 5) 60)) ::
            (pollLoop cid csec dcode expiresIn rs (min (interval + 5) 60)
              (elapsed + min (interval + 5) 60)).1,
          (pollLoop cid csec dcode expiresIn rs (min (interval + 5) 60)
            (elapsed + min (interval + 5) 60)).2)
      else
        ([.tokenRequest cid csec dcode, .print ("Error creating token: " ++ code)],
          some (.tokenError code))

/-- Lines 212-237: the `if not token` check, the role-credential exchange and
the verification post-check, as a function of the poll outcome.  The timeout
and token-error branches already returned inside the loop, so they contribute
nothing here. -/
def afterPoll (conf : ProfileConf) (w : Issuer)
    (ssoRegion accountId roleName : String) :
    PollOutcome → List Event × FlowResult
  | .timedOut => ([], .returns none)
  | .tokenError _ => ([], .returns none)
  | .token tok =>
    if truthy tok then
      match w.roleCreds with
      | .clientError m =>
        ([.roleCredCall accountId roleName (optStr tok),
          .print ("Failed to get role credentials: " ++ m)], .returns none)
      | .ok c =>
        if w.verifyOk then
          ([.roleCredCall accountId roleName (optStr tok),
            .print "Obtained temporary role credentials; verifying identity...",
            .verifyCall,
            .print "SSO login and verification succeeded."],
            .returns (some
              { aws_access_key_id := c.accessKeyId
                aws_secret_access_key := c.secretAccessKey
                aws_session_token := c.sessionToken
                region_name := pyOr conf.region (some ssoRegion) }))
        else
          ([.roleCredCall accountId roleName (optStr tok),
            .print "Obtained temporary role credentials; verifying identity...",
            .verifyCall], .returns none)
    else
      ([.print "Failed to obtain SSO access token."], .returns none)

/-- Whether `webbrowser.open` raised (the exception is swallowed either way). -/
def browserRaised : BrowserOutcome → Bool
  | .opened => false
  | .raised => true

/-- Lines 174-181: the prints of the verification URI and user code, and the
best-effort browser launch, emitted between device-authorization start and
the polling loop. -/
def preEvents (w : Issuer) (reg : RegResponse) (dev : DeviceAuthResponse)
    (startUrl : String) : List Event :=
  [Event.registerCall,
    Event.deviceAuthCall reg.clientId reg.clientSecret startUrl,
    Event.print "Open the following URL in your browser and complete the authentication:",
    Event.print (optStr (pyOr dev.verificationUriComplete dev.verificationUri))] ++
  (if truthy dev.userCode then
    [Event.print ("Code: " ++ optStr dev.userCode)] else []) ++
  [Event.browserOpen (optStr (pyOr dev.verificationUriComplete dev.verificationUri))
    (browserRaised w.browser)]

/-- Shallow embedding of `sso_device_flow_login` (lines 141-237) against a
scripted issuer world, returning the event trace and the flow's result. -/
def sso_device_flow_login (conf : ProfileConf) (w : Issuer) :
    List Event × FlowResult :=
  if configComplete conf then
    match w.register with
    | .clientError m =>
      ([.registerCall, .print ("Failed to register OIDC client: " ++ m)],
        .returns none)
    | .ok reg =>
      match w.deviceAuth with
      | .clientError m =>
        ([.registerCall,
          .deviceAuthCall reg.clientId reg.clientSecret (optStr (resolvedStartUrl conf)),
          .print ("Failed to start device authorization: " ++ m)], .returns none)
      | .ok dev =>
        match pollLoop reg.clientId reg.clientSecret dev.deviceCode
            (dev.expiresIn.getD 600) w.tokenResponses (dev.interval.getD 5) 0 with
        | (ptr, none) =>
          (preEvents w reg dev (optStr (resolvedStartUrl conf)) ++ ptr, .polling)
        | (ptr, some o) =>
          (preEvents w reg dev (optStr (resolvedStartUrl conf)) ++ ptr ++
              (afterPoll conf w (optStr (resolvedRegion conf))
                (optStr (resolvedAccountId conf)) (optStr (resolvedRoleName conf)) o).1,
            (afterPoll conf w (optStr (resolvedRegion conf))
              (optStr (resolvedAccountId conf)) (optStr (resolvedRoleName conf)) o).2)
  else
    ([.print "Missing required SSO configuration keys (sso_start_url, sso_region, sso_account_id, sso_role_name)."],
      .returns none)

/-- Recognizer for token-request events. -/
def isTokenRequest : Event → Bool
  | .tokenRequest _ _ _ => true
  | _ => false

/-- Recognizer for client-registration calls. -/
def isRegisterCall : Event → Bool
  | .registerCall => true
  | _ => false

/-- Recognizer for device-authorization-start calls. -/
def isDeviceAuthCall : Event → Bool
  | .deviceAuthCall _ _ _ => true
  | _ => false

/-- Recognizer for role-credential-exchange calls. -/
def isRoleCredCall : Event → Bool
  | .roleCredCall _ _ _ => true
  | _ => false

/-- Recognizer for browser-launch events. -/
def isBrowserEvent : Event → Bool
  | .browserOpen _ _ => true
  | _ => false

/-- Number of token requests in a trace. -/
def tokenRequestCount (tr : List Event) : Nat :=
  tr.countP isTokenRequest

/-- Number of client registrations in a trace. -/
def registerCount (tr : List Event) : Nat :=
  tr.countP isRegisterCall

/-- Number of device-authorization starts in a trace. -/
def deviceAuthCount (tr : List Event) : Nat :=
  tr.countP isDeviceAuthCall

/-- Number of role-credential-exchange calls in a trace. -/
def roleCredCount (tr : List Event) : Nat :=
  tr.countP isRoleCredCall

/-- Number of sleeps in a trace. -/
def sleepCount (tr : List Event) : Nat :=
  tr.countP fun e => match e with | .sleep _ => true | _ => false

/-- Seconds contributed by one event to the total sleep time. -/
def sleepSeconds : Event → Nat
  | .sleep n => n
  | _ => 0

/-- Total seconds slept along a trace. -/
def sleepTotal (tr : List Event) : Nat :=
  (tr.map sleepSeconds).sum

/-- The poll-interval update performed by one loop iteration (lines 198-207):
only a `SlowDown` error changes it, to `min (interval + 5) 60`. -/
def nextInterval (i : Nat) : TokenResponse → Nat
  | .success _ => i
  | .clientError code =>
    if code = "AuthorizationPendingException" then i
    else if code = "SlowDownException" then min (i + 5) 60
    else i

/-- The poll interval in force after a prefix of token responses. -/
def intervalAfter (i : Nat) (rs : List TokenResponse) : Nat :=
  rs.foldl nextInterval i

/-- Number of `SlowDown` responses in a script. -/
def slowDownCount : List TokenResponse → Nat
  | [] => 0
  | r :: rs => (if r = slowDownResp then 1 else 0) + slowDownCount rs

/-- A well-formed registration response used in concrete runs. -/
def regOk : RegResponse :=
  { clientId := "cid-1", clientSecret := "sec-1" }

/-- A well-formed device-authorization response used in concrete runs. -/
def devOk : DeviceAuthResponse :=
  { verificationUriComplete := some "https://device.sso/verify?code=ABCD"
    verificationUri := some "https://device.sso/verify"
    userCode := some "ABCD-EFGH"
    deviceCode := some "dev-code-1"
    interval := some 5
    expiresIn := some 600 }

/-- A complete SSO profile configuration used in concrete runs. -/
def confOk : ProfileConf :=
  { sso_start_url := some "https://x.awsapps.com/start"
    sso_starturl := none
    sso_region := some "us-east-1"
    sso_account_id := some "123456789012"
    sso_account := none
    sso_role_name := some "Admin"
    role_name := none
    region := none }

/-- Concrete role credentials used in concrete runs. -/
def credsOk : RoleCredentials :=
  { accessKeyId := "AKIA-X", secretAccessKey := "SECRET-X", sessionToken := "TOKEN-X" }

/-- A world in which every stage succeeds. -/
def worldOk : Issuer :=
  { register := .ok regOk
    deviceAuth := .ok devOk
    browser := .opened
    tokenResponses := [pendingResp, .success (some "atok")]
    roleCreds := .ok credsOk
    verifyOk := true }

/-- A configuration whose start URL is absent under both keys. -/
def confMissing : ProfileConf :=
  { sso_start_url := none
    sso_starturl := none
    sso_region := some "us-east-1"
    sso_account_id := some "123456789012"
    sso_account := none
    sso_role_name := some "Admin"
    role_name := none
    region := none }

/-- The message printed on line 150. -/
def missingConfigMsg : String :=
  "Missing required SSO configuration keys (sso_start_url, sso_region, sso_account_id, sso_role_name)."

/-- A device-authorization response whose provider-supplied interval is 61s. -/
def devBig : DeviceAuthResponse :=
  { verificationUriComplete := some "https://device.sso/verify?code=ABCD"
    verificationUri := some "https://device.sso/verify"
    userCode := some "ABCD-EFGH"
    deviceCode := some "dev-code-1"
    interval := some 61
    expiresIn := some 600 }

/-- Like `worldOk` but with the 61s initial interval. -/
def worldBigInterval : Issuer :=
  { register := .ok regOk
    deviceAuth := .ok devBig
    browser := .opened
    tokenResponses := [pendingResp, .success (some "atok")]
    roleCreds := .ok credsOk
    verifyOk := true }

/-- A device-authorization response expiring after 10s, with a 5s interval. -/
def devShort : DeviceAuthResponse :=
  { verificationUriComplete := some "https://device.sso/verify?code=ABCD"
    verificationUri := some "https://device.sso/verify"
    userCode := some "ABCD-EFGH"
    deviceCode := some "dev-code-1"
    interval := some 5
    expiresIn := some 10 }

/-- A world whose token endpoint answers nothing but SlowDown. -/
def worldAllSlowDown : Issuer :=
  { register := .ok regOk
    deviceAuth := .ok devShort
    browser := .opened
    tokenResponses := [slowDownResp, slowDownResp, slowDownResp]
    roleCreds := .ok credsOk
    verifyOk := true }

/-- Like `worldOk` but with the identity-verification post-check failing. -/
def worldVerifyFail : Issuer :=
  { register := .ok regOk
    deviceAuth := .ok devOk
    browser := .opened
    tokenResponses := [pendingResp, .success (some "atok")]
    roleCreds := .ok credsOk
    verifyOk := false }

theorem pollLoop_nil (cid csec : String) (dc : Option String) (E i e : Nat) :
    pollLoop cid csec dc E [] i e = ([], none) := rfl

theorem pollLoop_success (cid csec : String) (dc : Option String) (E : Nat)
    (t : Option String) (rs : List TokenResponse) (i e : Nat) :
    pollLoop cid csec dc E (.success t :: rs) i e
      = ([.tokenRequest cid csec dc], some (.token t)) := rfl

theorem pollLoop_pending_cont (cid csec : String) (dc : Option String) (E : Nat)
    (rs : List TokenResponse) (i e : Nat) (h : ¬ E < e + i) :
    pollLoop cid csec dc E (pendingResp :: rs) i e
      = ((.tokenRequest cid csec dc) :: (.sleep i) ::
          (pollLoop cid csec dc E rs i (e + i)).1,
        (pollLoop cid csec dc E rs i (e + i)).2) := by
  simp [pollLoop, pendingResp, h]

theorem pollLoop_slowdown (cid csec : String) (dc : Option String) (E : Nat)
    (rs : List TokenResponse) (i e : Nat) :
    pollLoop cid csec dc E (slowDownResp :: rs) i e
      = ((.tokenRequest cid csec dc) :: (.sleep (min (i + 5) 60)) ::
          (pollLoop cid csec dc E rs (min (i + 5) 60) (e + min (i + 5) 60)).1,
        (pollLoop cid csec dc E rs (min (i + 5) 60) (e + min (i + 5) 60)).2) := by
  simp [pollLoop, slowDownResp]

/-- C4: if any of the four resolved SSO fields (start URL, SSO region, account
id, role name) is absent or empty, the flow returns `None` immediately with
only the missing-configuration message, and contacts the issuer for nothing:
no registration, no device-authorization start, no token request. -/
theorem missing_config_short_circuit (conf : ProfileConf) (w : Issuer)
    (h : truthy (resolvedStartUrl conf) = false ∨
      truthy (resolvedRegion conf) = false ∨
      truthy (resolvedAccountId conf) = false ∨
      truthy (resolvedRoleName conf) = false) :
    sso_device_flow_login conf w = ([.print missingConfigMsg], .returns none)
    ∧ registerCount (sso_device_flow_login conf w).1 = 0
    ∧ deviceAuthCount (sso_device_flow_login conf w).1 = 0
    ∧ tokenRequestCount (sso_device_flow_login conf w).1 = 0 := by
  have hc : configComplete conf = false := by
    unfold configComplete
    rcases h with h | h | h | h <;> simp [h]
  have he : sso_device_flow_login conf w = ([.print missingConfigMsg], .returns none) := by
    simp [sso_device_flow_login, hc, missingConfigMsg]
  refine ⟨he, ?_, ?_, ?_⟩ <;> rw [he] <;> rfl

theorem missing_config_short_circuit_witness :
    sso_device_flow_login confMissing worldOk = ([.print missingConfigMsg], .returns none)
    ∧ registerCount (sso_device_flow_login confMissing worldOk).1 = 0
    ∧ deviceAuthCount (sso_device_flow_login confMissing worldOk).1 = 0
    ∧ tokenRequestCount (sso_device_flow_login confMissing worldOk).1 = 0 :=
  missing_config_short_circuit confMissing worldOk (Or.inl (by decide))

/-- C7: any token-endpoint error code other than the two retryable ones makes
the loop print and return at once — no sleep, no further token request
(whatever the rest of the script holds) — and the token-error outcome reaches
the caller as `None` without a role-credential call. -/
theorem nonretryable_error_immediate (cid csec : String) (dc : Option String)
    (E : Nat) (code : String) (rs : List TokenResponse) (i e : Nat)
    (conf : ProfileConf) (w : Issuer) (sr aid rn : String)
    (h1 : code ≠ "AuthorizationPendingException")
    (h2 : code ≠ "SlowDownException") :
    pollLoop cid csec dc E (.clientError code :: rs) i e
      = ([.tokenRequest cid csec dc, .print ("Error creating token: " ++ code)],
        some (.tokenError code))
    ∧ afterPoll conf w sr aid rn (.tokenError code) = ([], .returns none) :=
  ⟨by simp [pollLoop, h1, h2], rfl⟩

theorem nonretryable_error_immediate_witness :
    pollLoop "cid-1" "sec-1" (some "dev-code-1") 600
        [.clientError "AccessDeniedException", pendingResp] 5 0
      = ([.tokenRequest "cid-1" "sec-1" (some "dev-code-1"),
          .print ("Error creating token: " ++ "AccessDeniedException")],
        some (.tokenError "AccessDeniedException"))
    ∧ afterPoll confOk worldOk "us-east-1" "123456789012" "Admin"
        (.tokenError "AccessDeniedException") = ([], .returns none) :=
  nonretryable_error_immediate "cid-1" "sec-1" (some "dev-code-1") 600
    "AccessDeniedException" [pendingResp] 5 0 confOk worldOk
    "us-east-1" "123456789012" "Admin" (by decide) (by decide)

/-- C6: when a `Pending` response arrives after the elapsed time has exceeded
`expiresIn`, the loop sleeps once more, prints the timeout message and
returns — no further token request happens whatever the rest of the script
holds — and the timeout outcome reaches the caller as `None` without a
role-credential call. -/
theorem pending_after_deadline_times_out (cid csec : String) (dc : Option String)
    (E : Nat) (rs : List TokenResponse) (i e : Nat)
    (conf : ProfileConf) (w : Issuer) (sr aid rn : String)
    (h : E < e) :
    pollLoop cid csec dc E (pendingResp :: rs) i e
      = ([.tokenRequest cid csec dc, .sleep i, .print "Device authorization timed out."],
        some .timedOut)
    ∧ afterPoll conf w sr aid rn .timedOut = ([], .returns none) := by
  have h2 : E < e + i := lt_of_lt_of_le h (Nat.le_add_right e i)
  exact ⟨by simp [pollLoop, pendingResp, h2], rfl⟩

theorem pending_after_deadline_times_out_witness :
    pollLoop "cid-1" "sec-1" (some "dev-code-1") 10 [pendingResp, pendingResp] 5 11
      = ([.tokenRequest "cid-1" "sec-1" (some "dev-code-1"), .sleep 5,
          .print "Device authorization timed out."], some .timedOut)
    ∧ afterPoll confOk worldOk "us-east-1" "123456789012" "Admin" .timedOut
      = ([], .returns none) :=
  pending_after_deadline_times_out "cid-1" "sec-1" (some "dev-code-1") 10
    [pendingResp] 5 11 confOk worldOk "us-east-1" "123456789012" "Admin" (by decide)

/-- C10: a success response whose `accessToken` is missing or empty makes the
flow print the no-access-token message and return `None`, with no
role-credential-exchange call. -/
theorem empty_token_fails (conf : ProfileConf) (w : Issuer) (sr aid rn : String)
    (tok : Option String) (h : truthy tok = false) :
    afterPoll conf w sr aid rn (.token tok)
      = ([.print "Failed to obtain SSO access token."], .returns none)
    ∧ roleCredCount (afterPoll conf w sr aid rn (.token tok)).1 = 0 := by
  have he : afterPoll conf w sr aid rn (.token tok)
      = ([.print "Failed to obtain SSO access token."], .returns none) := by
    simp [afterPoll, h]
  exact ⟨he, by rw [he]; rfl⟩

theorem pollLoop_replicate_pending (cid csec : String) (dc : Option String)
    (E : Nat) (t : Option String) (i : Nat) :
    ∀ (N e : Nat), e + N * i ≤ E →
    pollLoop cid csec dc E (List.replicate N pendingResp ++ [.success t]) i e
      = ((List.replicate N [Event.tokenRequest cid csec dc, Event.sleep i]).flatten
          ++ [Event.tokenRequest cid csec dc], some (.token t)) := by
  intro N
  induction N with
  | zero => intro e _; simp [pollLoop]
  | succ n ih =>
    intro e h
    rw [Nat.succ_mul] at h
    have hle : ¬ E < e + i := by omega
    rw [List.replicate_succ, List.cons_append, pollLoop_pending_cont _ _ _ _ _ _ _ hle,
      ih (e + i) (by omega)]
    simp [List.replicate_succ]

theorem pattern_token_count (cid csec : String) (dc : Option String) (i : Nat) :
    ∀ N, tokenRequestCount
        ((List.replicate N [Event.tokenRequest cid csec dc, Event.sleep i]).flatten
          ++ [Event.tokenRequest cid csec dc]) = N + 1 := by
  intro N
  induction N with
  | zero => rfl
  | succ n ih =>
    rw [List.replicate_succ]
    simp [tokenRequestCount, List.flatten_cons, List.append_assoc, List.countP_append,
      List.countP_cons, isTokenRequest] at ih ⊢

theorem pattern_sleep_count (cid csec : String) (dc : Option String) (i : Nat) :
    ∀ N, sleepCount
        ((List.replicate N [Event.tokenRequest cid csec dc, Event.sleep i]).flatten
          ++ [Event.tokenRequest cid csec dc]) = N := by
  intro N
  induction N with
  | zero => rfl
  | succ n ih =>
    rw [List.replicate_succ]
    simp [sleepCount, List.flatten_cons, List.append_assoc, List.countP_append,
      List.countP_cons] at ih ⊢

theorem pattern_sleep_total (cid csec : String) (dc : Option String) (i : Nat) :
    ∀ N, sleepTotal
        ((List.replicate N [Event.tokenRequest cid csec dc, Event.sleep i]).flatten
          ++ [Event.tokenRequest cid csec dc]) = N * i := by
  intro N
  induction N with
  | zero => simp [sleepTotal, sleepSeconds]
  | succ n ih =>
    rw [List.replicate_succ]
    simp [sleepTotal, List.flatten_cons, List.append_assoc, List.map_append,
      List.map_cons, List.sum_append, List.sum_cons, sleepSeconds, Nat.succ_mul] at ih ⊢
    omega

/-- C5: against a script of N `Pending` responses followed by a success, with
the elapsed time never exceeding `expiresIn`, the loop performs exactly N+1
token requests with exactly one sleep between consecutive requests (the trace
is N copies of request-then-sleep followed by the final request), and the
total time slept is N times the initial interval — in particular at least
that much. -/
theorem pending_n_times_then_success (cid csec : String) (dc : Option String)
    (E : Nat) (t : Option String) (i N : Nat) (h : N * i ≤ E) :
    pollLoop cid csec dc E (List.replicate N pendingResp ++ [.success t]) i 0
      = ((List.replicate N [Event.tokenRequest cid csec dc, Event.sleep i]).flatten
          ++ [Event.tokenRequest cid csec dc], some (.token t))
    ∧ tokenRequestCount
        (pollLoop cid csec dc E (List.replicate N pendingResp ++ [.success t]) i 0).1
      = N + 1
    ∧ sleepCount
        (pollLoop cid csec dc E (List.replicate N pendingResp ++ [.success t]) i 0).1
      = N
    ∧ sleepTotal
        (pollLoop cid csec dc E (List.replicate N pendingResp ++ [.success t]) i 0).1
      = N * i
    ∧ N * i ≤ sleepTotal
        (pollLoop cid csec dc E (List.replicate N pendingResp ++ [.success t]) i 0).1 := by
  have he := pollLoop_replicate_pending cid csec dc E t i N 0 (by omega)
  refine ⟨he, ?_, ?_, ?_, ?_⟩ <;> rw [he]
  · exact pattern_token_count cid csec dc i N
  · exact pattern_sleep_count cid csec dc i N
  · exact pattern_sleep_total cid csec dc i N
  · rw [pattern_sleep_total cid csec dc i N]

theorem pending_n_times_then_success_witness :
    pollLoop "cid-1" "sec-1" (some "dev-code-1") 600
        (List.replicate 2 pendingResp ++ [.success (some "atok")]) 5 0
      = ((List.replicate 2 [Event.tokenRequest "cid-1" "sec-1" (some "dev-code-1"),
            Event.sleep 5]).flatten
          ++ [Event.tokenRequest "cid-1" "sec-1" (some "dev-code-1")],
        some (.token (some "atok")))
    ∧ tokenRequestCount
        (pollLoop "cid-1" "sec-1" (some "dev-code-1") 600
          (List.replicate 2 pendingResp ++ [.success (some "atok")]) 5 0).1 = 2 + 1
    ∧ sleepCount
        (pollLoop "cid-1" "sec-1" (some "dev-code-1") 600
          (List.replicate 2 pendingResp ++ [.success (some "atok")]) 5 0).1 = 2
    ∧ sleepTotal
        (pollLoop "cid-1" "sec-1" (some "dev-code-1") 600
          (List.replicate 2 pendingResp ++ [.success (some "atok")]) 5 0).1 = 2 * 5
    ∧ 2 * 5 ≤ sleepTotal
        (pollLoop "cid-1" "sec-1" (some "dev-code-1") 600
          (List.replicate 2 pendingResp ++ [.success (some "atok")]) 5 0).1 :=
  pending_n_times_then_success "cid-1" "sec-1" (some "dev-code-1") 600
    (some "atok") 5 2 (by decide)

theorem empty_token_fails_witness :
    afterPoll confOk worldOk "us-east-1" "123456789012" "Admin" (.token (some ""))
      = ([.print "Failed to obtain SSO access token."], .returns none)
    ∧ roleCredCount (afterPoll confOk worldOk "us-east-1" "123456789012" "Admin"
        (.token (some ""))).1 = 0 :=
  empty_token_fails confOk worldOk "us-east-1" "123456789012" "Admin"
    (some "") (by decide)

theorem nextInterval_pending (i : Nat) : nextInterval i pendingResp = i := by
  simp [nextInterval, pendingResp]

theorem nextInterval_slowdown (i : Nat) :
    nextInterval i slowDownResp = min (i + 5) 60 := by
  simp [nextInterval, slowDownResp]

theorem intervalAfter_formula :
    ∀ (rs : List TokenResponse) (i : Nat), i ≤ 60 →
      (∀ r ∈ rs, r = pendingResp ∨ r = slowDownResp) →
      intervalAfter i rs = min (i + 5 * slowDownCount rs) 60 := by
  intro rs
  induction rs with
  | nil =>
    intro i hi _
    simp [intervalAfter, slowDownCount]
    omega
  | cons r rs ih =>
    intro i hi hmem
    have hr := hmem r (List.mem_cons_self r rs)
    have hrest : ∀ x ∈ rs, x = pendingResp ∨ x = slowDownResp :=
      fun x hx => hmem x (List.mem_cons_of_mem r hx)
    rcases hr with hr | hr <;> subst hr
    · rw [show intervalAfter i (pendingResp :: rs)
          = intervalAfter (nextInterval i pendingResp) rs from rfl,
        nextInterval_pending, ih i hi hrest]
      have hcnt : slowDownCount (pendingResp :: rs) = slowDownCount rs := by
        simp [slowDownCount, pendingResp, slowDownResp]
      rw [hcnt]
    · rw [show intervalAfter i (slowDownResp :: rs)
          = intervalAfter (nextInterval i slowDownResp) rs from rfl,
        nextInterval_slowdown, ih (min (i + 5) 60) (by omega) hrest]
      have hcnt : slowDownCount (slowDownResp :: rs) = 1 + slowDownCount rs := by
        simp [slowDownCount]
      rw [hcnt]
      omega

/-- C3 (amended): provided the provider-supplied initial interval is at most
60s, after K SlowDown responses — in any interleaving with Pending responses,
which leave the interval unchanged — the poll interval equals
min(initial + 5*K, 60); along the attempt it never decreases and never
exceeds 60s.  (An initial interval above 60s is used as-is until the first
SlowDown caps it, refuting the unconditional claim.) -/
theorem slowdown_backoff_formula (i : Nat) (rs1 rs2 : List TokenResponse)
    (hi : i ≤ 60)
    (hmem : ∀ r ∈ rs1 ++ rs2, r = pendingResp ∨ r = slowDownResp) :
    intervalAfter i (rs1 ++ rs2) = min (i + 5 * slowDownCount (rs1 ++ rs2)) 60
    ∧ intervalAfter i rs1 ≤ intervalAfter i (rs1 ++ rs2)
    ∧ intervalAfter i (rs1 ++ rs2) ≤ 60 := by
  have hmem1 : ∀ r ∈ rs1, r = pendingResp ∨ r = slowDownResp :=
    fun r hr => hmem r (List.mem_append_left _ hr)
  have hmem2 : ∀ r ∈ rs2, r = pendingResp ∨ r = slowDownResp :=
    fun r hr => hmem r (List.mem_append_right _ hr)
  have h1 := intervalAfter_formula rs1 i hi hmem1
  have hle : intervalAfter i rs1 ≤ 60 := by rw [h1]; omega
  have h2 := intervalAfter_formula rs2 (intervalAfter i rs1) hle hmem2
  have happ : intervalAfter i (rs1 ++ rs2)
      = intervalAfter (intervalAfter i rs1) rs2 := by
    simp [intervalAfter, List.foldl_append]
  have hall := intervalAfter_formula (rs1 ++ rs2) i hi hmem
  refine ⟨hall, ?_, ?_⟩
  · rw [happ, h2]
    omega
  · rw [hall]
    omega

theorem slowdown_backoff_formula_witness :
    intervalAfter 5 ([slowDownResp, pendingResp] ++ [slowDownResp])
      = min (5 + 5 * slowDownCount ([slowDownResp, pendingResp] ++ [slowDownResp])) 60
    ∧ intervalAfter 5 [slowDownResp, pendingResp]
      ≤ intervalAfter 5 ([slowDownResp, pendingResp] ++ [slowDownResp])
    ∧ intervalAfter 5 ([slowDownResp, pendingResp] ++ [slowDownResp]) ≤ 60 :=
  slowdown_backoff_formula 5 [slowDownResp, pendingResp] [slowDownResp]
    (by decide) (by decide)

/-- C3 counterexample: with a provider-supplied initial interval of 61s the
attempt sleeps 61s on its first Pending response — after K = 0 SlowDown
responses the effective interval is 61, not min(61 + 5*0, 60) = 60, and it
exceeds 60s. -/
theorem slowdown_cap_counterexample :
    Event.sleep 61 ∈ (sso_device_flow_login confOk worldBigInterval).1
    ∧ intervalAfter 61 [] ≠ min (61 + 5 * slowDownCount []) 60
    ∧ ¬ intervalAfter 61 [] ≤ 60 := by
  decide

/-- C2 (amended): the wall-clock timeout bounds polling only through Pending
responses: a Pending response arriving once the slept time plus the current
interval exceeds expiresIn (provider-supplied, `.get`-defaulted to 600s) ends
the attempt with the timeout failure and no further requests, while a
SlowDown response never checks the deadline — after it the loop always issues
another token request, however much time has elapsed. -/
theorem timeout_checked_only_on_pending (cid csec : String) (dc : Option String)
    (E : Nat) (rs : List TokenResponse) (i e i2 e2 : Nat)
    (h : E < e + i) :
    pollLoop cid csec dc E (pendingResp :: rs) i e
      = ([.tokenRequest cid csec dc, .sleep i, .print "Device authorization timed out."],
        some .timedOut)
    ∧ pollLoop cid csec dc E (slowDownResp :: rs) i2 e2
      = ((.tokenRequest cid csec dc) :: (.sleep (min (i2 + 5) 60)) ::
          (pollLoop cid csec dc E rs (min (i2 + 5) 60) (e2 + min (i2 + 5) 60)).1,
        (pollLoop cid csec dc E rs (min (i2 + 5) 60) (e2 + min (i2 + 5) 60)).2) :=
  ⟨by simp [pollLoop, pendingResp, h], pollLoop_slowdown cid csec dc E rs i2 e2⟩

theorem timeout_checked_only_on_pending_witness :
    pollLoop "cid-1" "sec-1" (some "dev-code-1") 10 (pendingResp :: []) 5 6
      = ([.tokenRequest "cid-1" "sec-1" (some "dev-code-1"), .sleep 5,
          .print "Device authorization timed out."], some .timedOut)
    ∧ pollLoop "cid-1" "sec-1" (some "dev-code-1") 10 (slowDownResp :: []) 58 100
      = ((.tokenRequest "cid-1" "sec-1" (some "dev-code-1")) :: (.sleep (min (58 + 5) 60)) ::
          (pollLoop "cid-1" "sec-1" (some "dev-code-1") 10 [] (min (58 + 5) 60)
            (100 + min (58 + 5) 60)).1,
        (pollLoop "cid-1" "sec-1" (some "dev-code-1") 10 [] (min (58 + 5) 60)
          (100 + min (58 + 5) 60)).2) :=
  timeout_checked_only_on_pending "cid-1" "sec-1" (some "dev-code-1") 10 [] 5 6 58 100
    (by decide)

/-- C2 counterexample: with expiresIn = 10s an issuer answering only SlowDown
keeps the attempt polling past the deadline — after three SlowDown responses
the attempt has slept 45s > 10s and made three token requests, and the loop
has still not returned. -/
theorem slowdown_ignores_timeout_counterexample :
    (sso_device_flow_login confOk worldAllSlowDown).2 = .polling
    ∧ 10 < sleepTotal (sso_device_flow_login confOk worldAllSlowDown).1
    ∧ tokenRequestCount (sso_device_flow_login confOk worldAllSlowDown).1 = 3 := by
  decide

/-- C1 (amended): when registration, device authorization, polling and the
role-credential exchange all succeed but the identity-verification post-check
fails, the flow returns None — the RoleCredentials already obtained are not
returned to the caller (nothing is revoked at the issuer; they are simply
dropped), so the verification outcome decides whether the caller receives the
credentials, not merely what is reported. -/
theorem verification_failure_drops_credentials (conf : ProfileConf) (w : Issuer)
    (reg : RegResponse) (dev : DeviceAuthResponse) (ptr : List Event)
    (t : String) (c : RoleCredentials)
    (hc : configComplete conf = true)
    (hr : w.register = .ok reg)
    (hd : w.deviceAuth = .ok dev)
    (hp : pollLoop reg.clientId reg.clientSecret dev.deviceCode
        (dev.expiresIn.getD 600) w.tokenResponses (dev.interval.getD 5) 0
      = (ptr, some (.token (some t))))
    (ht : t.isEmpty = false)
    (hrc : w.roleCreds = .ok c)
    (hv : w.verifyOk = false) :
    (sso_device_flow_login conf w).2 = .returns none := by
  simp [sso_device_flow_login, hc, hr, hd, hp, afterPoll, truthy, ht, hrc, hv]

theorem verification_failure_drops_credentials_witness :
    (sso_device_flow_login confOk worldVerifyFail).2 = .returns none :=
  verification_failure_drops_credentials confOk worldVerifyFail regOk devOk
    [.tokenRequest "cid-1" "sec-1" (some "dev-code-1"), .sleep 5,
      .tokenRequest "cid-1" "sec-1" (some "dev-code-1")]
    "atok" credsOk (by decide) rfl rfl (by decide) (by decide) rfl rfl

/-- C1 counterexample: in the world where every stage succeeds, flipping only
the verification outcome flips the returned value — with verification failing
the flow returns None rather than the obtained credentials, which the
otherwise-identical verification-succeeding world shows were obtainable. -/
theorem verification_failure_counterexample :
    (sso_device_flow_login confOk worldVerifyFail).2 = .returns none
    ∧ (sso_device_flow_login confOk worldOk).2
      = .returns (some { aws_access_key_id := "AKIA-X"
                         aws_secret_access_key := "SECRET-X"
                         aws_session_token := "TOKEN-X"
                         region_name := some "us-east-1" }) := by
  decide

theorem pollLoop_trace_events (cid csec : String) (dc : Option String) (E : Nat) :
    ∀ (rs : List TokenResponse) (i e : Nat) (ev : Event),
      ev ∈ (pollLoop cid csec dc E rs i e).1 →
      ev = .tokenRequest cid csec dc ∨ (∃ n, ev = .sleep n) ∨ (∃ s, ev = .print s) := by
  intro rs
  induction rs with
  | nil =>
    intro i e ev hmem
    simp [pollLoop] at hmem
  | cons r rs ih =>
    intro i e ev hmem
    cases r with
    | success t =>
      simp [pollLoop] at hmem
      exact Or.inl hmem
    | clientError code =>
      by_cases h1 : code = "AuthorizationPendingException"
      · subst h1
        by_cases h2 : E < e + i
        · simp [pollLoop, h2] at hmem
          rcases hmem with hmem | hmem | hmem
          · exact Or.inl hmem
          · exact Or.inr (Or.inl ⟨i, hmem⟩)
          · exact Or.inr (Or.inr ⟨_, hmem⟩)
        · simp [pollLoop, h2] at hmem
          rcases hmem with hmem | hmem | hmem
          · exact Or.inl hmem
          · exact Or.inr (Or.inl ⟨i, hmem⟩)
          · exact ih i (e + i) ev hmem
      · by_cases h2 : code = "SlowDownException"
        · subst h2
          simp [pollLoop] at hmem
          rcases hmem with hmem | hmem | hmem
          · exact Or.inl hmem
          · exact Or.inr (Or.inl ⟨_, hmem⟩)
          · exact ih (min (i + 5) 60) (e + min (i + 5) 60) ev hmem
        · simp [pollLoop, h1, h2] at hmem
          rcases hmem with hmem | hmem
          · exact Or.inl hmem
          · exact Or.inr (Or.inr ⟨_, hmem⟩)

theorem afterPoll_trace_events (conf : ProfileConf) (w : Issuer)
    (sr aid rn : String) (o : PollOutcome) (ev : Event)
    (hmem : ev ∈ (afterPoll conf w sr aid rn o).1) :
    (∃ s, ev = .print s) ∨ (∃ a b c, ev = .roleCredCall a b c) ∨ ev = .verifyCall := by
  cases o with
  | timedOut => simp [afterPoll] at hmem
  | tokenError c => simp [afterPoll] at hmem
  | token tok =>
    by_cases ht : truthy tok
    · cases hrc : w.roleCreds with
      | clientError m =>
        simp [afterPoll, ht, hrc] at hmem
        rcases hmem with hmem | hmem
        · exact Or.inr (Or.inl ⟨_, _, _, hmem⟩)
        · exact Or.inl ⟨_, hmem⟩
      | ok c =>
        by_cases hv : w.verifyOk
        · simp [afterPoll, ht, hrc, hv] at hmem
          rcases hmem with hmem | hmem | hmem | hmem
          · exact Or.inr (Or.inl ⟨_, _, _, hmem⟩)
          · exact Or.inl ⟨_, hmem⟩
          · exact Or.inr (Or.inr hmem)
          · exact Or.inl ⟨_, hmem⟩
        · simp [afterPoll, ht, hrc, hv] at hmem
          rcases hmem with hmem | hmem | hmem
          · exact Or.inr (Or.inl ⟨_, _, _, hmem⟩)
          · exact Or.inl ⟨_, hmem⟩
          · exact Or.inr (Or.inr hmem)
    · simp [afterPoll, ht] at hmem
      exact Or.inl ⟨_, hmem⟩

theorem pollLoop_trace_counts (cid csec : String) (dc : Option String) (E : Nat)
    (rs : List TokenResponse) (i e : Nat) :
    registerCount (pollLoop cid csec dc E rs i e).1 = 0
    ∧ deviceAuthCount (pollLoop cid csec dc E rs i e).1 = 0 := by
  constructor
  · rw [registerCount, List.countP_eq_zero]
    intro a ha
    rcases pollLoop_trace_events cid csec dc E rs i e a ha with h | ⟨n, h⟩ | ⟨s, h⟩ <;>
      subst h <;> simp [isRegisterCall]
  · rw [deviceAuthCount, List.countP_eq_zero]
    intro a ha
    rcases pollLoop_trace_events cid csec dc E rs i e a ha with h | ⟨n, h⟩ | ⟨s, h⟩ <;>
      subst h <;> simp [isDeviceAuthCall]

theorem pollLoop_filter_tokenRequests (cid csec : String) (dc : Option String)
    (E : Nat) (rs : List TokenResponse) (i e : Nat) :
    (pollLoop cid csec dc E rs i e).1.filter isTokenRequest
      = List.replicate (tokenRequestCount (pollLoop cid csec dc E rs i e).1)
          (.tokenRequest cid csec dc) := by
  rw [tokenRequestCount, List.countP_eq_length_filter]
  apply List.eq_replicate_of_mem
  intro b hb
  have hb1 := List.mem_of_mem_filter hb
  have hb2 := List.of_mem_filter hb
  rcases pollLoop_trace_events cid csec dc E rs i e b hb1 with h | ⟨n, h⟩ | ⟨s, h⟩
  · exact h
  · subst h; simp [isTokenRequest] at hb2
  · subst h; simp [isTokenRequest] at hb2

theorem afterPoll_trace_counts (conf : ProfileConf) (w : Issuer)
    (sr aid rn : String) (o : PollOutcome) :
    registerCount (afterPoll conf w sr aid rn o).1 = 0
    ∧ deviceAuthCount (afterPoll conf w sr aid rn o).1 = 0
    ∧ tokenRequestCount (afterPoll conf w sr aid rn o).1 = 0 := by
  refine ⟨?_, ?_, ?_⟩
  all_goals
    first
      | rw [registerCount, List.countP_eq_zero]
      | rw [deviceAuthCount, List.countP_eq_zero]
      | rw [tokenRequestCount, List.countP_eq_zero]
  all_goals
    intro a ha
    rcases afterPoll_trace_events conf w sr aid rn o a ha with ⟨s, h⟩ | ⟨x, y, z, h⟩ | h <;>
      subst h <;> simp [isRegisterCall, isDeviceAuthCall, isTokenRequest]

theorem preEvents_counts (w : Issuer) (reg : RegResponse) (dev : DeviceAuthResponse)
    (u : String) :
    registerCount (preEvents w reg dev u) = 1
    ∧ deviceAuthCount (preEvents w reg dev u) = 1
    ∧ tokenRequestCount (preEvents w reg dev u) = 0
    ∧ (preEvents w reg dev u).filter isTokenRequest = [] := by
  by_cases h : truthy dev.userCode <;>
    simp [preEvents, h, registerCount, deviceAuthCount, tokenRequestCount,
      List.countP_append, List.countP_cons, isRegisterCall, isDeviceAuthCall,
      isTokenRequest, List.filter_append]

theorem flow_trace_shape (conf : ProfileConf) (w : Issuer)
    (reg : RegResponse) (dev : DeviceAuthResponse)
    (hc : configComplete conf = true)
    (hr : w.register = .ok reg)
    (hd : w.deviceAuth = .ok dev) :
    ∃ rest : List Event,
      (sso_device_flow_login conf w).1
        = preEvents w reg dev (optStr (resolvedStartUrl conf)) ++ rest
      ∧ registerCount rest = 0
      ∧ deviceAuthCount rest = 0
      ∧ rest.filter isTokenRequest
        = List.replicate (tokenRequestCount rest)
            (.tokenRequest reg.clientId reg.clientSecret dev.deviceCode) := by
  rcases hp : pollLoop reg.clientId reg.clientSecret dev.deviceCode
      (dev.expiresIn.getD 600) w.tokenResponses (dev.interval.getD 5) 0 with ⟨ptr, pres⟩
  have hptr1 : registerCount ptr = 0 ∧ deviceAuthCount ptr = 0 := by
    have h := pollLoop_trace_counts reg.clientId reg.clientSecret dev.deviceCode
      (dev.expiresIn.getD 600) w.tokenResponses (dev.interval.getD 5) 0
    rwa [hp] at h
  have hptr2 : ptr.filter isTokenRequest
      = List.replicate (tokenRequestCount ptr)
          (.tokenRequest reg.clientId reg.clientSecret dev.deviceCode) := by
    have h := pollLoop_filter_tokenRequests reg.clientId reg.clientSecret dev.deviceCode
      (dev.expiresIn.getD 600) w.tokenResponses (dev.interval.getD 5) 0
    rwa [hp] at h
  cases pres with
  | none =>
    refine ⟨ptr, ?_, hptr1.1, hptr1.2, hptr2⟩
    simp [sso_device_flow_login, hc, hr, hd, hp]
  | some o =>
    refine ⟨ptr ++ (afterPoll conf w (optStr (resolvedRegion conf))
      (optStr (resolvedAccountId conf)) (optStr (resolvedRoleName conf)) o).1, ?_, ?_, ?_, ?_⟩
    · simp [sso_device_flow_login, hc, hr, hd, hp]
    · have ha := afterPoll_trace_counts conf w (optStr (resolvedRegion conf))
        (optStr (resolvedAccountId conf)) (optStr (resolvedRoleName conf)) o
      simp only [registerCount, List.countP_append] at hptr1 ha ⊢
      omega
    · have ha := afterPoll_trace_counts conf w (optStr (resolvedRegion conf))
        (optStr (resolvedAccountId conf)) (optStr (resolvedRoleName conf)) o
      simp only [deviceAuthCount, List.countP_append] at hptr1 ha ⊢
      omega
    · have ha := afterPoll_trace_counts conf w (optStr (resolvedRegion conf))
        (optStr (resolvedAccountId conf)) (optStr (resolvedRoleName conf)) o
      have hafilter : (afterPoll conf w (optStr (resolvedRegion conf))
          (optStr (resolvedAccountId conf)) (optStr (resolvedRoleName conf)) o).1.filter
            isTokenRequest = [] := by
        rw [← List.length_eq_zero, ← List.countP_eq_length_filter]
        exact ha.2.2
      rw [List.filter_append, hptr2, hafilter, List.append_nil]
      simp only [tokenRequestCount, List.countP_append] at ha ⊢
      rw [ha.2.2, Nat.add_zero]

/-- C8: with complete configuration and successful registration and
device-authorization start, one attempt calls the registration endpoint
exactly once and the device-authorization-start endpoint exactly once — in
that order, and before any token request, since the trace begins with
precisely those two calls — and every token request of the attempt carries
the clientId/clientSecret of that one registration and the deviceCode of
that one DeviceAuthorization; no retry inside the attempt re-registers or
obtains a fresh device authorization. -/
theorem single_registration_and_device_auth (conf : ProfileConf) (w : Issuer)
    (reg : RegResponse) (dev : DeviceAuthResponse)
    (hc : configComplete conf = true)
    (hr : w.register = .ok reg)
    (hd : w.deviceAuth = .ok dev) :
    (sso_device_flow_login conf w).1.take 2
      = [.registerCall, .deviceAuthCall reg.clientId reg.clientSecret
          (optStr (resolvedStartUrl conf))]
    ∧ registerCount (sso_device_flow_login conf w).1 = 1
    ∧ deviceAuthCount (sso_device_flow_login conf w).1 = 1
    ∧ (sso_device_flow_login conf w).1.filter isTokenRequest
      = List.replicate (tokenRequestCount (sso_device_flow_login conf w).1)
          (.tokenRequest reg.clientId reg.clientSecret dev.deviceCode) := by
  obtain ⟨rest, htr, h1, h2, h3⟩ := flow_trace_shape conf w reg dev hc hr hd
  have hpre := preEvents_counts w reg dev (optStr (resolvedStartUrl conf))
  refine ⟨?_, ?_, ?_, ?_⟩
  · rw [htr]
    simp only [preEvents, List.cons_append, List.nil_append, List.append_assoc]
    rfl
  · rw [htr]
    simp only [registerCount, List.countP_append] at h1 hpre ⊢
    omega
  · rw [htr]
    simp only [deviceAuthCount, List.countP_append] at h2 hpre ⊢
    omega
  · rw [htr, List.filter_append, hpre.2.2.2, List.nil_append, h3]
    simp only [tokenRequestCount, List.countP_append]
    have h0 : List.countP isTokenRequest
        (preEvents w reg dev (optStr (resolvedStartUrl conf))) = 0 := hpre.2.2.1
    rw [h0, Nat.zero_add]

theorem single_registration_and_device_auth_witness :
    (sso_device_flow_login confOk worldOk).1.take 2
      = [.registerCall, .deviceAuthCall regOk.clientId regOk.clientSecret
          (optStr (resolvedStartUrl confOk))]
    ∧ registerCount (sso_device_flow_login confOk worldOk).1 = 1
    ∧ deviceAuthCount (sso_device_flow_login confOk worldOk).1 = 1
    ∧ (sso_device_flow_login confOk worldOk).1.filter isTokenRequest
      = List.replicate (tokenRequestCount (sso_device_flow_login confOk worldOk).1)
          (.tokenRequest regOk.clientId regOk.clientSecret devOk.deviceCode) :=
  single_registration_and_device_auth confOk worldOk regOk devOk (by decide) rfl rfl

theorem afterPoll_browser_irrelevant (conf : ProfileConf)
    (wr : RegResult) (wd : DevAuthResult) (b1 b2 : BrowserOutcome)
    (wt : List TokenResponse) (wrc : RoleCredResult) (wv : Bool)
    (sr aid rn : String) (o : PollOutcome) :
    afterPoll conf ⟨wr, wd, b1, wt, wrc, wv⟩ sr aid rn o
      = afterPoll conf ⟨wr, wd, b2, wt, wrc, wv⟩ sr aid rn o := by
  cases o <;> rfl

/-- C9: with a device authorization obtained (and its user code present), the
flow prints the verification URI and the user code, and attempts the browser
launch, strictly before the first token request (they are events three to six
of the trace, which holds no token request up to there); and the browser
launch is best-effort — a raised exception is swallowed, and whether the
launch raised has no effect on the returned value or on any event of the
attempt other than the recorded browser launch itself. -/
theorem present_user_and_browser_best_effort (conf : ProfileConf) (w : Issuer)
    (reg : RegResponse) (dev : DeviceAuthResponse) (b1 b2 : BrowserOutcome)
    (hc : configComplete conf = true)
    (hr : w.register = .ok reg)
    (hd : w.deviceAuth = .ok dev)
    (hu : truthy dev.userCode = true) :
    (sso_device_flow_login conf w).1.take 6
      = [.registerCall,
        .deviceAuthCall reg.clientId reg.clientSecret (optStr (resolvedStartUrl conf)),
        .print "Open the following URL in your browser and complete the authentication:",
        .print (optStr (pyOr dev.verificationUriComplete dev.verificationUri)),
        .print ("Code: " ++ optStr dev.userCode),
        .browserOpen (optStr (pyOr dev.verificationUriComplete dev.verificationUri))
          (browserRaised w.browser)]
    ∧ tokenRequestCount ((sso_device_flow_login conf w).1.take 6) = 0
    ∧ (sso_device_flow_login conf { w with browser := b1 }).2
      = (sso_device_flow_login conf { w with browser := b2 }).2
    ∧ ((sso_device_flow_login conf { w with browser := b1 }).1.filter
        fun ev => !isBrowserEvent ev)
      = ((sso_device_flow_login conf { w with browser := b2 }).1.filter
        fun ev => !isBrowserEvent ev) := by
  obtain ⟨wr, wd, wb, wt, wrc, wv⟩ := w
  replace hr : wr = .ok reg := hr
  replace hd : wd = .ok dev := hd
  subst hr
  subst hd
  obtain ⟨rest, htr, hre, hde, hfe⟩ :=
    flow_trace_shape conf ⟨.ok reg, .ok dev, wb, wt, wrc, wv⟩ reg dev hc rfl rfl
  have hpre6 : preEvents ⟨.ok reg, .ok dev, wb, wt, wrc, wv⟩ reg dev
      (optStr (resolvedStartUrl conf))
      = [.registerCall,
        .deviceAuthCall reg.clientId reg.clientSecret (optStr (resolvedStartUrl conf)),
        .print "Open the following URL in your browser and complete the authentication:",
        .print (optStr (pyOr dev.verificationUriComplete dev.verificationUri)),
        .print ("Code: " ++ optStr dev.userCode),
        .browserOpen (optStr (pyOr dev.verificationUriComplete dev.verificationUri))
          (browserRaised wb)] := by
    simp [preEvents, hu]
  have htake : (sso_device_flow_login conf ⟨.ok reg, .ok dev, wb, wt, wrc, wv⟩).1.take 6
      = [.registerCall,
        .deviceAuthCall reg.clientId reg.clientSecret (optStr (resolvedStartUrl conf)),
        .print "Open the following URL in your browser and complete the authentication:",
        .print (optStr (pyOr dev.verificationUriComplete dev.verificationUri)),
        .print ("Code: " ++ optStr dev.userCode),
        .browserOpen (optStr (pyOr dev.verificationUriComplete dev.verificationUri))
          (browserRaised wb)] := by
    rw [htr, hpre6]
    rfl
  refine ⟨htake, by rw [htake]; rfl, ?_, ?_⟩ <;>
  · rcases hp : pollLoop reg.clientId reg.clientSecret dev.deviceCode
        (dev.expiresIn.getD 600) wt (dev.interval.getD 5) 0 with ⟨ptr, pres⟩
    cases pres with
    | none =>
      simp [sso_device_flow_login, hc, hp, preEvents, hu, List.filter_append,
        isBrowserEvent]
    | some o =>
      have hap := afterPoll_browser_irrelevant conf (.ok reg) (.ok dev) b1 b2 wt wrc wv
        (optStr (resolvedRegion conf)) (optStr (resolvedAccountId conf))
        (optStr (resolvedRoleName conf)) o
      simp [sso_device_flow_login, hc, hp, hap, preEvents, hu, List.filter_append,
        isBrowserEvent]

theorem present_user_and_browser_best_effort_witness :
    (sso_device_flow_login confOk worldOk).1.take 6
      = [.registerCall,
        .deviceAuthCall regOk.clientId regOk.clientSecret (optStr (resolvedStartUrl confOk)),
        .print "Open the following URL in your browser and complete the authentication:",
        .print (optStr (pyOr devOk.verificationUriComplete devOk.verificationUri)),
        .print ("Code: " ++ optStr devOk.userCode),
        .browserOpen (optStr (pyOr devOk.verificationUriComplete devOk.verificationUri))
          (browserRaised worldOk.browser)]
    ∧ tokenRequestCount ((sso_device_flow_login confOk worldOk).1.take 6) = 0
    ∧ (sso_device_flow_login confOk { worldOk with browser := .opened }).2
      = (sso_device_flow_login confOk { worldOk with browser := .raised }).2
    ∧ ((sso_device_flow_login confOk { worldOk with browser := .opened }).1.filter
        fun ev => !isBrowserEvent ev)
      = ((sso_device_flow_login confOk { worldOk with browser := .raised }).1.filter
        fun ev => !isBrowserEvent ev) :=
  present_user_and_browser_best_effort confOk worldOk regOk devOk .opened .raised
    (by decide) rfl rfl (by decide)

end AwsGrok
